import Mathlib

/-!
Verification of the TeamViewer MCP server (`src/mcp_teamviewer/server.py`)
against its natural-language specification.

The development shallowly embeds the server's data flow:

* JSON values (`JValue`) model the Python values that travel between the
  MCP arguments, the request bodies/query parameters, and the parsed
  responses.  Numeric literals are modelled as integers only (no value in
  the repository's shaping rules produces a float).
* `dumpsCompact` / `dumpsIndent2` model `json.dumps(data)` and
  `json.dumps(data, indent=2)` as used at `server.py:96`, `server.py:711`
  and `server.py:720-733`.
* `json_loads` models `response.json()` (i.e. `json.loads`) used by the
  four transport wrappers.  Error messages are abbreviated to the leading
  phrase of the corresponding CPython message (positions are dropped).
* The four transport wrappers `tv_get`/`tv_post`/`tv_put`/`tv_delete`,
  the credential lookup `get_token`, the header builder `build_headers`,
  the envelope helper `ok`, and the dispatcher `handle_call_tool` are
  translated function by function.  Network I/O is shallowly embedded as
  a function `HttpRequest → HttpResponse`; every embedded operation also
  returns the list of requests it issued, so that "zero network calls"
  and "exactly one PUT to ..." are statable.
-/

/-- A JSON value, as produced by `json.loads` and consumed by `json.dumps`.
Python `None` is `null`; numeric literals are modelled as integers. -/
inductive JValue where
  | null : JValue
  | bool : Bool → JValue
  | int : Int → JValue
  | str : String → JValue
  | arr : List JValue → JValue
  | obj : List (String × JValue) → JValue

/-- The left-brace character, kept as a named constant. -/
def lbrace : Char := Char.ofNat 123

/-- The right-brace character, kept as a named constant. -/
def rbrace : Char := Char.ofNat 125

/-- Hexadecimal digit (lowercase), as used by `json.dumps` escapes. -/
def hexDigit (n : Nat) : Char :=
  if n < 10 then Char.ofNat (48 + n) else Char.ofNat (87 + (n % 16))

/-- Four lowercase hex digits, as in a `\uXXXX` escape. -/
def hex4 (n : Nat) : String :=
  String.mk [hexDigit (n / 4096 % 16), hexDigit (n / 256 % 16),
             hexDigit (n / 16 % 16), hexDigit (n % 16)]

/-- Escape one character the way `json.dumps` (default `ensure_ascii=True`)
does.  Characters beyond the basic multilingual plane are not split into
surrogate pairs; no string in the repository contains one. -/
def escChar (c : Char) : String :=
  if c = '"' then "\\\""
  else if c = '\\' then "\\\\"
  else if c = '\n' then "\\n"
  else if c = '\t' then "\\t"
  else if c = '\r' then "\\r"
  else if c.toNat = 8 then "\\b"
  else if c.toNat = 12 then "\\f"
  else if c.toNat < 32 then "\\u" ++ hex4 c.toNat
  else if c.toNat < 128 then String.singleton c
  else "\\u" ++ hex4 c.toNat

/-- Escape a whole string for a JSON string literal. -/
def jEsc (s : String) : String :=
  String.join (s.toList.map escChar)

/-- A JSON string literal, quotes included. -/
def jStrLit (s : String) : String := "\"" ++ jEsc s ++ "\""

mutual

/-- Model of `json.dumps(data)` with the default separators
`(", ", ": ")`, as used on the unknown-tool path (`server.py:711`). -/
def dumpsCompact : JValue → String
  | .null => "null"
  | .bool true => "true"
  | .bool false => "false"
  | .int n => toString n
  | .str s => jStrLit s
  | .arr xs => "[" ++ String.intercalate ", " (dumpsCompactList xs) ++ "]"
  | .obj kvs =>
      String.singleton lbrace
        ++ String.intercalate ", " (dumpsCompactKVs kvs)
        ++ String.singleton rbrace

/-- Serialize each array element compactly. -/
def dumpsCompactList : List JValue → List String
  | [] => []
  | v :: vs => dumpsCompact v :: dumpsCompactList vs

/-- Serialize each object member compactly. -/
def dumpsCompactKVs : List (String × JValue) → List String
  | [] => []
  | kv :: kvs => (jStrLit kv.1 ++ ": " ++ dumpsCompact kv.2) :: dumpsCompactKVs kvs

end

/-- Two spaces per indentation level, as `indent=2` produces. -/
def pad (lvl : Nat) : String := String.mk (List.replicate (2 * lvl) ' ')

mutual

/-- Model of `json.dumps(data, indent=2)` (`server.py:96`), at a given
indentation level.  Matches CPython: empty containers collapse, members
are separated by `",\n"`, keys by `": "`. -/
def dumpsI : Nat → JValue → String
  | _, .null => "null"
  | _, .bool true => "true"
  | _, .bool false => "false"
  | _, .int n => toString n
  | _, .str s => jStrLit s
  | _, .arr [] => "[]"
  | lvl, .arr (x :: xs) =>
      "[\n" ++ String.intercalate ",\n" (dumpsIList lvl (x :: xs))
        ++ "\n" ++ pad lvl ++ "]"
  | _, .obj [] => String.singleton lbrace ++ String.singleton rbrace
  | lvl, .obj (kv :: kvs) =>
      String.singleton lbrace ++ "\n"
        ++ String.intercalate ",\n" (dumpsIKVs lvl (kv :: kvs))
        ++ "\n" ++ pad lvl ++ String.singleton rbrace

/-- Indented serialization of array elements (each on its own line). -/
def dumpsIList : Nat → List JValue → List String
  | _, [] => []
  | lvl, v :: vs => (pad (lvl + 1) ++ dumpsI (lvl + 1) v) :: dumpsIList lvl vs

/-- Indented serialization of object members (each on its own line). -/
def dumpsIKVs : Nat → List (String × JValue) → List String
  | _, [] => []
  | lvl, kv :: kvs =>
      (pad (lvl + 1) ++ jStrLit kv.1 ++ ": " ++ dumpsI (lvl + 1) kv.2)
        :: dumpsIKVs lvl kvs

end

/-- Model of `json.dumps(data, indent=2)` at the top level. -/
def dumpsIndent2 (v : JValue) : String := dumpsI 0 v

example : dumpsCompact (.obj [("error", .str "Unknown tool: x")])
    = "\x7b\"error\": \"Unknown tool: x\"\x7d" := rfl

example : dumpsIndent2 (.obj [("error", .str "x")])
    = "\x7b\n  \"error\": \"x\"\n\x7d" := rfl

example : dumpsIndent2 (.obj [("a", .obj [("b", .int 1)]), ("c", .arr [.int 1, .int 2])])
    = "\x7b\n  \"a\": \x7b\n    \"b\": 1\n  \x7d,\n  \"c\": [\n    1,\n    2\n  ]\n\x7d" := rfl

/-! ### Model of `json.loads` (used by `response.json()` in the transport) -/

/-- Skip JSON whitespace. -/
def skipWs : List Char → List Char
  | c :: cs => if c = ' ' ∨ c = '\t' ∨ c = '\n' ∨ c = '\r' then skipWs cs else c :: cs
  | [] => []

/-- Value of one hexadecimal digit. -/
def hexVal (c : Char) : Option Nat :=
  if '0' ≤ c ∧ c ≤ '9' then some (c.toNat - 48)
  else if 'a' ≤ c ∧ c ≤ 'f' then some (c.toNat - 87)
  else if 'A' ≤ c ∧ c ≤ 'F' then some (c.toNat - 55)
  else none

/-- Parse the body of a JSON string literal (opening quote already
consumed), returning the decoded string and the rest of the input.
Surrogate-pair recombination is not modelled.  The fuel argument is an
upper bound on the remaining input length. -/
def parseStringBody : Nat → List Char → Except String (String × List Char)
  | 0, _ => .error "Unterminated string"
  | _ + 1, [] => .error "Unterminated string"
  | fuel + 1, c :: cs =>
    if c = '"' then .ok ("", cs)
    else if c = '\\' then
      match cs with
      | [] => .error "Unterminated string"
      | e :: cs2 =>
        let dec : Except String (String × List Char) :=
          if e = '"' then .ok ("\"", cs2)
          else if e = '\\' then .ok ("\\", cs2)
          else if e = '/' then .ok ("/", cs2)
          else if e = 'b' then .ok ("\x08", cs2)
          else if e = 'f' then .ok ("\x0c", cs2)
          else if e = 'n' then .ok ("\n", cs2)
          else if e = 'r' then .ok ("\r", cs2)
          else if e = 't' then .ok ("\t", cs2)
          else if e = 'u' then
            match cs2 with
            | a :: b :: c3 :: d :: rest =>
              match hexVal a, hexVal b, hexVal c3, hexVal d with
              | some x1, some x2, some x3, some x4 =>
                  .ok (String.singleton (Char.ofNat (((x1 * 16 + x2) * 16 + x3) * 16 + x4)), rest)
              | _, _, _, _ => .error "Invalid hexadecimal escape"
            | _ => .error "Invalid hexadecimal escape"
          else .error "Invalid escape"
        match dec with
        | .error m => .error m
        | .ok (s, rest) =>
          match parseStringBody fuel rest with
          | .ok (s2, rest2) => .ok (s ++ s2, rest2)
          | .error m => .error m
    else
      match parseStringBody fuel cs with
      | .ok (s2, rest2) => .ok (String.singleton c ++ s2, rest2)
      | .error m => .error m

/-- Split a leading run of decimal digits from the input. -/
def splitDigits : List Char → List Char × List Char
  | c :: cs =>
      if c.isDigit then
        let p := splitDigits cs
        (c :: p.1, p.2)
      else ([], c :: cs)
  | [] => ([], [])

/-- Numeric value of a digit run. -/
def digitsVal (ds : List Char) : Nat :=
  ds.foldl (fun a c => a * 10 + (c.toNat - 48)) 0

/-- Parse a JSON number.  Floating-point literals (a fraction or an
exponent part) are outside the integer fragment modelled here and are
reported as a parse error. -/
def parseNumber (input : List Char) : Except String (JValue × List Char) :=
  let core : List Char → Except String (Int × List Char) := fun cs =>
    let p := splitDigits cs
    match p.1 with
    | [] => .error "Expecting value"
    | _ :: _ =>
      match p.2 with
      | c :: _ =>
          if c = '.' ∨ c = 'e' ∨ c = 'E' then .error "Float literals are not modelled"
          else .ok ((digitsVal p.1 : Int), p.2)
      | [] => .ok ((digitsVal p.1 : Int), p.2)
  match input with
  | c :: cs =>
      if c = '-' then
        match core cs with
        | .ok (n, rest) => .ok (.int (-n), rest)
        | .error m => .error m
      else
        match core (c :: cs) with
        | .ok (n, rest) => .ok (.int n, rest)
        | .error m => .error m
  | [] => .error "Expecting value"

mutual

/-- Parse one JSON value (leading whitespace allowed).  The fuel bounds
the recursion depth; `json_loads` supplies more fuel than any input can
consume. -/
def parseValue : Nat → List Char → Except String (JValue × List Char)
  | 0, _ => .error "Nesting too deep"
  | fuel + 1, input =>
    match skipWs input with
    | [] => .error "Expecting value"
    | c :: cs =>
      if c = 'n' then
        match cs with
        | 'u' :: 'l' :: 'l' :: rest => .ok (.null, rest)
        | _ => .error "Expecting value"
      else if c = 't' then
        match cs with
        | 'r' :: 'u' :: 'e' :: rest => .ok (.bool true, rest)
        | _ => .error "Expecting value"
      else if c = 'f' then
        match cs with
        | 'a' :: 'l' :: 's' :: 'e' :: rest => .ok (.bool false, rest)
        | _ => .error "Expecting value"
      else if c = '"' then
        match parseStringBody (cs.length + 1) cs with
        | .ok (s, rest) => .ok (.str s, rest)
        | .error m => .error m
      else if c = lbrace then
        match skipWs cs with
        | d :: rest =>
            if d = rbrace then .ok (.obj [], rest)
            else
              match parseMembers fuel (skipWs cs) with
              | .ok (kvs, rest2) => .ok (.obj kvs, rest2)
              | .error m => .error m
        | [] => .error "Expecting property name enclosed in double quotes"
      else if c = '[' then
        match skipWs cs with
        | ']' :: rest => .ok (.arr [], rest)
        | _ =>
          match parseElements fuel cs with
          | .ok (xs, rest2) => .ok (.arr xs, rest2)
          | .error m => .error m
      else if c = '-' ∨ c.isDigit then parseNumber (c :: cs)
      else .error "Expecting value"

/-- Parse the members of a JSON object, the closing brace included.  The
input starts (after whitespace) at a property name. -/
def parseMembers : Nat → List Char → Except String (List (String × JValue) × List Char)
  | 0, _ => .error "Nesting too deep"
  | fuel + 1, input =>
    match input with
    | c :: cs =>
      if c = '"' then
        match parseStringBody (cs.length + 1) cs with
        | .error m => .error m
        | .ok (key, rest1) =>
          match skipWs rest1 with
          | ':' :: rest2 =>
            match parseValue fuel rest2 with
            | .error m => .error m
            | .ok (v, rest3) =>
              match skipWs rest3 with
              | d :: rest4 =>
                  if d = ',' then
                    match parseMembers fuel (skipWs rest4) with
                    | .ok (kvs, rest5) => .ok ((key, v) :: kvs, rest5)
                    | .error m => .error m
                  else if d = rbrace then .ok ([(key, v)], rest4)
                  else .error "Expecting delimiter"
              | [] => .error "Expecting delimiter"
          | _ => .error "Expecting colon delimiter"
      else .error "Expecting property name enclosed in double quotes"
    | [] => .error "Expecting property name enclosed in double quotes"

/-- Parse the elements of a JSON array, the closing bracket included. -/
def parseElements : Nat → List Char → Except String (List JValue × List Char)
  | 0, _ => .error "Nesting too deep"
  | fuel + 1, input =>
    match parseValue fuel input with
    | .error m => .error m
    | .ok (v, rest) =>
      match skipWs rest with
      | ',' :: rest2 =>
          match parseElements fuel rest2 with
          | .ok (xs, rest3) => .ok (v :: xs, rest3)
          | .error m => .error m
      | ']' :: rest2 => .ok ([v], rest2)
      | _ => .error "Expecting delimiter"

end

/-- Model of `json.loads`: parse one value and require only whitespace
after it.  Error messages are the leading phrase of the corresponding
CPython message (line/column positions are dropped). -/
def json_loads (s : String) : Except String JValue :=
  match parseValue (s.length + 2) s.toList with
  | .error m => .error m
  | .ok (v, rest) =>
    match skipWs rest with
    | [] => .ok v
    | _ => .error "Extra data"

example : json_loads "" = .error "Expecting value" := rfl
example : json_loads "oops" = .error "Expecting value" := rfl
example : json_loads "\x7b\"success\": true\x7d" = .ok (.obj [("success", .bool true)]) := rfl
example : json_loads "[1, -2, \"a\"]" = .ok (.arr [.int 1, .int (-2), .str "a"]) := rfl
example : json_loads "\x7b\x7d" = .ok (.obj []) := rfl

/-! ### Python dictionary and string helpers -/

/-- An argument mapping / JSON object body, in insertion order.  Python
dictionaries have unique keys; lookups take the first occurrence. -/
abbrev Args := List (String × JValue)

/-- Lookup in a dictionary: `d[k]` when present, `none` when absent. -/
def dictGet : Args → String → Option JValue
  | [], _ => none
  | kv :: rest, k => if kv.1 = k then some kv.2 else dictGet rest k

/-- Model of `args.get(k)`: Python returns `None` both for an absent key
and for a key stored with value `None`, so the absent case collapses to
`null`. -/
def pyGet (args : Args) (k : String) : JValue :=
  (dictGet args k).getD .null

/-- Whether a value is Python `None` (`v is None`). -/
def jIsNull : JValue → Bool
  | .null => true
  | _ => false

/-- Python truthiness of a JSON value (`if args.get(k):`). -/
def jTruthy : JValue → Bool
  | .null => false
  | .bool b => b
  | .int n => !(n == 0)
  | .str s => !(s.isEmpty)
  | .arr xs => !(xs.isEmpty)
  | .obj kvs => !(kvs.isEmpty)

/-- The dict comprehension `{k: v for k, v in args.items() if v is not None}`
(`server.py:537` and the other mutation tools). -/
def filterNotNull (args : Args) : Args :=
  args.filter (fun kv => !(jIsNull kv.2))

/-- The removal effect of `args.pop(k)` (`server.py:558` etc.).  Under the
unique-keys invariant of Python dictionaries, filtering every occurrence
agrees with deleting the single entry. -/
def dictRemove (args : Args) (k : String) : Args :=
  args.filter (fun kv => !(kv.1 == k))

/-- The key list of a dictionary, in order. -/
def keys (args : Args) : List String :=
  args.map (fun kv => kv.1)

mutual

/-- Python `repr` of a JSON-shaped value, used by `str` on containers.
String escaping inside `repr` is elided (no claim depends on it); the
shapes (`'…'` quoting, `True`/`False`/`None`) follow Python. -/
def pyRepr : JValue → String
  | .null => "None"
  | .bool true => "True"
  | .bool false => "False"
  | .int n => toString n
  | .str s => "'" ++ s ++ "'"
  | .arr xs => "[" ++ String.intercalate ", " (pyReprList xs) ++ "]"
  | .obj kvs =>
      String.singleton lbrace ++ String.intercalate ", " (pyReprKVs kvs)
        ++ String.singleton rbrace

/-- Elementwise `repr` of a list. -/
def pyReprList : List JValue → List String
  | [] => []
  | v :: vs => pyRepr v :: pyReprList vs

/-- Memberwise `repr` of a dictionary. -/
def pyReprKVs : List (String × JValue) → List String
  | [] => []
  | kv :: kvs => ("'" ++ kv.1 ++ "': " ++ pyRepr kv.2) :: pyReprKVs kvs

end

/-- Python `str(value)`, as applied by an f-string such as
`f"/devices/{args['device_id']}"`. -/
def pyStr : JValue → String
  | .str s => s
  | .null => "None"
  | .bool true => "True"
  | .bool false => "False"
  | .int n => toString n
  | .arr xs => pyRepr (.arr xs)
  | .obj kvs => pyRepr (.obj kvs)

/-! ### Error taxonomy and the HTTP boundary -/

/-- The Python exceptions that can arise inside a tool invocation.
`jsonDecodeError` models `json.JSONDecodeError`, which is a subclass of
`ValueError` in CPython — see `isValueError` below; the dispatcher's
`except ValueError` clause therefore catches it too. -/
inductive PyError where
  | valueError : String → PyError
  | jsonDecodeError : String → PyError
  | httpStatusError : Nat → String → PyError
  | keyError : String → PyError
  | transportError : String → PyError

/-- Whether `except ValueError` catches the exception: `ValueError`
itself and its subclass `json.JSONDecodeError`. -/
def PyError.isValueError : PyError → Bool
  | .valueError _ => true
  | .jsonDecodeError _ => true
  | _ => false

/-- Whether `except httpx.HTTPStatusError` catches the exception. -/
def PyError.isStatusError : PyError → Bool
  | .httpStatusError _ _ => true
  | _ => false

/-- The message observed by `str(exc)` for the exceptions the boundary
converts into payloads. -/
def PyError.message : PyError → String
  | .valueError m => m
  | .jsonDecodeError m => m
  | .httpStatusError _ b => b
  | .keyError k => k
  | .transportError m => m

/-- HTTP verb of an outbound request. -/
inductive Verb where
  | GET : Verb
  | POST : Verb
  | PUT : Verb
  | DELETE : Verb

/-- An outbound HTTP request as assembled by the transport wrappers:
verb, full URL, headers, optional query parameters, optional JSON body. -/
structure HttpRequest where
  verb : Verb
  url : String
  headers : List (String × String)
  params : Option Args
  body : Option Args

/-- What the network returns for a request: a status/body pair, or a
connection-level failure (timeout, refused connection, …) which httpx
raises as a transport exception. -/
inductive HttpResponse where
  | response : Nat → String → HttpResponse
  | netFail : String → HttpResponse

/-- The network, shallowly embedded as a response oracle. -/
abbrev Network := HttpRequest → HttpResponse

/-- `BASE_URL` (`server.py:23`). -/
def BASE_URL : String := "https://webapi.teamviewer.com/api/v1"

/-- The `ValueError` message raised by `get_token` (`server.py:31-35`). -/
def tokenErrorMsg : String :=
  "TEAMVIEWER_API_TOKEN environment variable is not set. "
    ++ "Create a Script Token in TeamViewer Management Console under "
    ++ "Edit Profile → Apps → Create Script Token."

/-- `get_token` (`server.py:28-36`).  `env` is the value of the
`TEAMVIEWER_API_TOKEN` environment variable (`none` when unset);
`os.environ.get(…, "")` turns an unset variable into `""`, and any
falsy (empty) token raises `ValueError`. -/
def get_token (env : Option String) : Except PyError String :=
  let token := env.getD ""
  if token = "" then .error (.valueError tokenErrorMsg) else .ok token

/-- `build_headers` (`server.py:39-43`). -/
def build_headers (env : Option String) : Except PyError (List (String × String)) :=
  match get_token env with
  | .error e => .error e
  | .ok token =>
      .ok [("Authorization", "Bearer " ++ token),
           ("Content-Type", "application/json")]

/-- Outcome of `response.json()` after a successful status check. -/
def expectJson (body : String) : Except PyError JValue :=
  match json_loads body with
  | .ok v => .ok v
  | .error m => .error (.jsonDecodeError m)

/-- Whether `response.raise_for_status()` passes (2xx status). -/
def is2xx (status : Nat) : Bool :=
  decide (200 ≤ status) && decide (status < 300)

/-- `tv_get` (`server.py:46-55`): build headers (which may raise before
any network traffic), issue one GET, raise for non-2xx, parse JSON.
The second component of the result lists the requests issued. -/
def tv_get (env : Option String) (net : Network) (path : String)
    (params : Option Args) : Except PyError JValue × List HttpRequest :=
  match build_headers env with
  | .error e => (.error e, [])
  | .ok hdrs =>
    let req : HttpRequest := ⟨.GET, BASE_URL ++ path, hdrs, params, none⟩
    match net req with
    | .netFail m => (.error (.transportError m), [req])
    | .response status body =>
        if is2xx status then (expectJson body, [req])
        else (.error (.httpStatusError status body), [req])

/-- `tv_post` (`server.py:58-67`): `json=body or {}` always sends a JSON
body, the empty object when `body` is `None` (or empty). -/
def tv_post (env : Option String) (net : Network) (path : String)
    (body : Option Args) : Except PyError JValue × List HttpRequest :=
  match build_headers env with
  | .error e => (.error e, [])
  | .ok hdrs =>
    let req : HttpRequest := ⟨.POST, BASE_URL ++ path, hdrs, none, some (body.getD [])⟩
    match net req with
    | .netFail m => (.error (.transportError m), [req])
    | .response status rbody =>
        if is2xx status then (expectJson rbody, [req])
        else (.error (.httpStatusError status rbody), [req])

/-- `tv_put` (`server.py:70-79`).  Note: no special case for status 204 —
the body of every 2xx response is handed to `response.json()`. -/
def tv_put (env : Option String) (net : Network) (path : String)
    (body : Option Args) : Except PyError JValue × List HttpRequest :=
  match build_headers env with
  | .error e => (.error e, [])
  | .ok hdrs =>
    let req : HttpRequest := ⟨.PUT, BASE_URL ++ path, hdrs, none, some (body.getD [])⟩
    match net req with
    | .netFail m => (.error (.transportError m), [req])
    | .response status rbody =>
        if is2xx status then (expectJson rbody, [req])
        else (.error (.httpStatusError status rbody), [req])

/-- `tv_delete` (`server.py:82-92`): the only wrapper that checks for
status 204 and synthesizes `{"success": True}` instead of parsing. -/
def tv_delete (env : Option String) (net : Network) (path : String) :
    Except PyError JValue × List HttpRequest :=
  match build_headers env with
  | .error e => (.error e, [])
  | .ok hdrs =>
    let req : HttpRequest := ⟨.DELETE, BASE_URL ++ path, hdrs, none, none⟩
    match net req with
    | .netFail m => (.error (.transportError m), [req])
    | .response status rbody =>
        if is2xx status then
          if status = 204 then (.ok (.obj [("success", .bool true)]), [req])
          else (expectJson rbody, [req])
        else (.error (.httpStatusError status rbody), [req])

/-! ### Tool catalog (`TOOLS`, `server.py:103-507`)

Each entry records the tool name together with the `required` list and
the remaining (optional) property names of its `inputSchema`.  The
human-readable descriptions and JSON-schema types are elided: no claim
refers to them. -/

/-- One catalog entry: name, required argument names, optional argument
names (schema properties not listed as required), in schema order. -/
structure ToolSchema where
  name : String
  required : List String
  optional : List String

/-- The static tool catalog, in source order. -/
def TOOLS : List ToolSchema := [
  ⟨"get_account", [], []⟩,
  ⟨"update_account", [], ["email", "name", "company", "password", "old_password"]⟩,
  ⟨"list_devices", [], ["groupid", "online_state", "full_list"]⟩,
  ⟨"get_device", ["device_id"], []⟩,
  ⟨"update_device", ["device_id"], ["alias", "description", "password", "groupid"]⟩,
  ⟨"delete_device", ["device_id"], []⟩,
  ⟨"list_groups", [], ["name"]⟩,
  ⟨"create_group", ["name"], ["policy_id"]⟩,
  ⟨"update_group", ["group_id"], ["name", "policy_id"]⟩,
  ⟨"delete_group", ["group_id"], []⟩,
  ⟨"share_group", ["group_id", "users"], []⟩,
  ⟨"list_users", [], ["name", "email", "permissions", "full_list"]⟩,
  ⟨"create_user", ["email", "name", "password"], ["permissions", "language"]⟩,
  ⟨"get_user", ["user_id"], []⟩,
  ⟨"update_user", ["user_id"], ["email", "name", "permissions", "active"]⟩,
  ⟨"list_sessions", [], ["groupid", "state"]⟩,
  ⟨"create_session", ["groupid"], ["description", "custom_internal_id"]⟩,
  ⟨"get_session", ["session_code"], []⟩,
  ⟨"update_session", ["session_code"], ["description", "custom_internal_id"]⟩,
  ⟨"close_session", ["session_code"], []⟩,
  ⟨"get_connection_reports", [],
    ["from_date", "to_date", "device_id", "user_id", "session_code", "limit", "offset"]⟩,
  ⟨"list_meetings", [], []⟩,
  ⟨"create_meeting", ["subject", "start", "end"], ["password"]⟩,
  ⟨"get_meeting", ["meeting_id"], []⟩,
  ⟨"update_meeting", ["meeting_id"], ["subject", "start", "end", "password"]⟩,
  ⟨"delete_meeting", ["meeting_id"], []⟩,
  ⟨"list_policies", [], []⟩,
  ⟨"get_policy", ["policy_id"], []⟩,
  ⟨"ping", [], []⟩]

/-- The catalog's tool names. -/
def toolNames : List String := TOOLS.map (fun t => t.name)

/-- Required argument names of a catalog tool (empty for unknown names). -/
def requiredOf (name : String) : List String :=
  ((TOOLS.find? (fun t => t.name == name)).map (fun t => t.required)).getD []

/-- Optional argument names of a catalog tool (empty for unknown names). -/
def optionalOf (name : String) : List String :=
  ((TOOLS.find? (fun t => t.name == name)).map (fun t => t.optional)).getD []

/-! ### The dispatcher (`handle_call_tool`, `server.py:519-735`)

Every matched branch of the source has the form "shape the arguments,
await exactly one `tv_<verb>` call, return `ok(data)`"; the shaping part
(which may raise `KeyError` on a missing required argument) is the
per-branch content and is translated branch by branch into `shapeTool`,
while the common tail is `execPlan`/`wrapOk`. -/

/-- One MCP `TextContent` item (`types.TextContent(type="text", text=…)`). -/
structure TextContent where
  ctype : String
  text : String

/-- `ok` (`server.py:95-96`): wrap a payload as a single indented-JSON
text content. -/
def ok (data : JValue) : List TextContent :=
  [⟨"text", dumpsIndent2 data⟩]

/-- The verb/path/query/body an invocation resolved to. -/
structure Plan where
  verb : Verb
  path : String
  params : Option Args
  body : Option Args

/-- Result of the argument-shaping phase of a dispatcher branch. -/
inductive ShapeResult where
  | unknown : ShapeResult
  | err : PyError → ShapeResult
  | plan : Plan → ShapeResult

/-- `params or None` (`server.py:550` etc.): an empty query dictionary is
passed as `None`. -/
def optParams (p : Args) : Option Args :=
  if p.isEmpty then none else some p

/-- The `field_map` of `get_connection_reports` (`server.py:659-667`),
in insertion order. -/
def connFieldMap : List (String × String) :=
  [("from_date", "from"), ("to_date", "to"), ("device_id", "deviceid"),
   ("user_id", "userid"), ("session_code", "sessioncode"),
   ("limit", "limit"), ("offset", "offset")]

/-- The argument-shaping chain of `handle_call_tool`, branch by branch in
source order (`server.py:527-713`).  `.err (.keyError k)` models a
`KeyError` escaping from `args[k]`/`args.pop(k)`. -/
def shapeTool (name : String) (args : Args) : ShapeResult :=
  if name = "ping" then .plan ⟨.GET, "/ping", none, none⟩
  else if name = "get_account" then .plan ⟨.GET, "/account", none, none⟩
  else if name = "update_account" then
    .plan ⟨.PUT, "/account", none, some (filterNotNull args)⟩
  else if name = "list_devices" then
    let params :=
      (if jTruthy (pyGet args "groupid") then [("groupid", pyGet args "groupid")] else [])
        ++ (if jTruthy (pyGet args "online_state") then
              [("online_state", pyGet args "online_state")] else [])
        ++ (if jTruthy (pyGet args "full_list") then
              [("full_list", JValue.str "true")] else [])
    .plan ⟨.GET, "/devices", optParams params, none⟩
  else if name = "get_device" then
    match dictGet args "device_id" with
    | none => .err (.keyError "device_id")
    | some v => .plan ⟨.GET, "/devices/" ++ pyStr v, none, none⟩
  else if name = "update_device" then
    match dictGet args "device_id" with
    | none => .err (.keyError "device_id")
    | some v =>
        .plan ⟨.PUT, "/devices/" ++ pyStr v, none,
               some (filterNotNull (dictRemove args "device_id"))⟩
  else if name = "delete_device" then
    match dictGet args "device_id" with
    | none => .err (.keyError "device_id")
    | some v => .plan ⟨.DELETE, "/devices/" ++ pyStr v, none, none⟩
  else if name = "list_groups" then
    let params :=
      if jTruthy (pyGet args "name") then [("name", pyGet args "name")] else []
    .plan ⟨.GET, "/groups", optParams params, none⟩
  else if name = "create_group" then
    match dictGet args "name" with
    | none => .err (.keyError "name")
    | some v =>
        let payload :=
          ("name", v)
            :: (if jTruthy (pyGet args "policy_id") then
                  [("policy_id", pyGet args "policy_id")] else [])
        .plan ⟨.POST, "/groups", none, some payload⟩
  else if name = "update_group" then
    match dictGet args "group_id" with
    | none => .err (.keyError "group_id")
    | some v =>
        .plan ⟨.PUT, "/groups/" ++ pyStr v, none,
               some (filterNotNull (dictRemove args "group_id"))⟩
  else if name = "delete_group" then
    match dictGet args "group_id" with
    | none => .err (.keyError "group_id")
    | some v => .plan ⟨.DELETE, "/groups/" ++ pyStr v, none, none⟩
  else if name = "share_group" then
    match dictGet args "group_id" with
    | none => .err (.keyError "group_id")
    | some g =>
        match dictGet args "users" with
        | none => .err (.keyError "users")
        | some u =>
            .plan ⟨.POST, "/groups/" ++ pyStr g ++ "/share_group", none,
                   some [("users", u)]⟩
  else if name = "list_users" then
    let params :=
      (if jTruthy (pyGet args "name") then [("name", pyGet args "name")] else [])
        ++ (if jTruthy (pyGet args "email") then [("email", pyGet args "email")] else [])
        ++ (if jTruthy (pyGet args "permissions") then
              [("permissions", pyGet args "permissions")] else [])
        ++ (if jTruthy (pyGet args "full_list") then
              [("full_list", JValue.str "true")] else [])
    .plan ⟨.GET, "/users", optParams params, none⟩
  else if name = "create_user" then
    .plan ⟨.POST, "/users", none, some (filterNotNull args)⟩
  else if name = "get_user" then
    match dictGet args "user_id" with
    | none => .err (.keyError "user_id")
    | some v => .plan ⟨.GET, "/users/" ++ pyStr v, none, none⟩
  else if name = "update_user" then
    match dictGet args "user_id" with
    | none => .err (.keyError "user_id")
    | some v =>
        .plan ⟨.PUT, "/users/" ++ pyStr v, none,
               some (filterNotNull (dictRemove args "user_id"))⟩
  else if name = "list_sessions" then
    let params :=
      (if jTruthy (pyGet args "groupid") then [("groupid", pyGet args "groupid")] else [])
        ++ (if jTruthy (pyGet args "state") then [("state", pyGet args "state")] else [])
    .plan ⟨.GET, "/sessions", optParams params, none⟩
  else if name = "create_session" then
    .plan ⟨.POST, "/sessions", none, some (filterNotNull args)⟩
  else if name = "get_session" then
    match dictGet args "session_code" with
    | none => .err (.keyError "session_code")
    | some v => .plan ⟨.GET, "/sessions/" ++ pyStr v, none, none⟩
  else if name = "update_session" then
    match dictGet args "session_code" with
    | none => .err (.keyError "session_code")
    | some v =>
        .plan ⟨.PUT, "/sessions/" ++ pyStr v, none,
               some (filterNotNull (dictRemove args "session_code"))⟩
  else if name = "close_session" then
    match dictGet args "session_code" with
    | none => .err (.keyError "session_code")
    | some v =>
        .plan ⟨.PUT, "/sessions/" ++ pyStr v, none,
               some [("state", JValue.str "closed")]⟩
  else if name = "get_connection_reports" then
    let params :=
      connFieldMap.filterMap (fun ap =>
        if jIsNull (pyGet args ap.1) then none else some (ap.2, pyGet args ap.1))
    .plan ⟨.GET, "/reports/connections", optParams params, none⟩
  else if name = "list_meetings" then .plan ⟨.GET, "/meetings", none, none⟩
  else if name = "create_meeting" then
    .plan ⟨.POST, "/meetings", none, some (filterNotNull args)⟩
  else if name = "get_meeting" then
    match dictGet args "meeting_id" with
    | none => .err (.keyError "meeting_id")
    | some v => .plan ⟨.GET, "/meetings/" ++ pyStr v, none, none⟩
  else if name = "update_meeting" then
    match dictGet args "meeting_id" with
    | none => .err (.keyError "meeting_id")
    | some v =>
        .plan ⟨.PUT, "/meetings/" ++ pyStr v, none,
               some (filterNotNull (dictRemove args "meeting_id"))⟩
  else if name = "delete_meeting" then
    match dictGet args "meeting_id" with
    | none => .err (.keyError "meeting_id")
    | some v => .plan ⟨.DELETE, "/meetings/" ++ pyStr v, none, none⟩
  else if name = "list_policies" then .plan ⟨.GET, "/teamviewerpolicies", none, none⟩
  else if name = "get_policy" then
    match dictGet args "policy_id" with
    | none => .err (.keyError "policy_id")
    | some v => .plan ⟨.GET, "/teamviewerpolicies/" ++ pyStr v, none, none⟩
  else .unknown

/-- Issue the one transport call a resolved branch performs. -/
def execPlan (env : Option String) (net : Network) (p : Plan) :
    Except PyError JValue × List HttpRequest :=
  match p.verb with
  | .GET => tv_get env net p.path p.params
  | .POST => tv_post env net p.path p.body
  | .PUT => tv_put env net p.path p.body
  | .DELETE => tv_delete env net p.path

/-- The common `data = await tv_…(…); return ok(data)` tail of every
matched branch. -/
def wrapOk : Except PyError JValue × List HttpRequest →
    Except PyError (List TextContent) × List HttpRequest
  | (.ok data, t) => (.ok (ok data), t)
  | (.error e, t) => (.error e, t)

/-- The unknown-tool envelope (`server.py:707-713`): note the compact
`json.dumps` call, without `indent=2`. -/
def unknownText (name : String) : String :=
  dumpsCompact (.obj [("error", .str ("Unknown tool: " ++ name))])

/-- The body of the dispatcher's `try:` block. -/
def dispatchBody (env : Option String) (net : Network) (name : String) (args : Args) :
    Except PyError (List TextContent) × List HttpRequest :=
  match shapeTool name args with
  | .unknown => (.ok [⟨"text", unknownText name⟩], [])
  | .err e => (.error e, [])
  | .plan p => wrapOk (execPlan env net p)

/-- `handle_call_tool` (`server.py:519-735`): normalize the argument
mapping (`args = arguments or {}`), run the dispatch body, and convert
`httpx.HTTPStatusError` and `ValueError` (including its subclass
`json.JSONDecodeError`) into soft error envelopes.  Every other
exception — `KeyError` from shaping, httpx transport failures — escapes
the boundary, modelled by an `.error` first component. -/
def handle_call_tool (env : Option String) (net : Network) (name : String)
    (arguments : Option Args) :
    Except PyError (List TextContent) × List HttpRequest :=
  let args := arguments.getD []
  match dispatchBody env net name args with
  | (.ok contents, t) => (.ok contents, t)
  | (.error e, t) =>
    match e with
    | .httpStatusError status rbody =>
        (.ok [⟨"text", dumpsIndent2 (.obj
            [("error", .str ("TeamViewer API error " ++ toString status)),
             ("detail", .str rbody)])⟩], t)
    | .valueError m => (.ok [⟨"text", dumpsIndent2 (.obj [("error", .str m)])⟩], t)
    | .jsonDecodeError m => (.ok [⟨"text", dumpsIndent2 (.obj [("error", .str m)])⟩], t)
    | e => (.error e, t)

/-! ### Basic lemmas about the embedded operations -/

/-- The header list produced for a non-empty token. -/
def headersFor (tok : String) : List (String × String) :=
  [("Authorization", "Bearer " ++ tok), ("Content-Type", "application/json")]

theorem build_headers_ok (tok : String) (htok : tok ≠ "") :
    build_headers (some tok) = .ok (headersFor tok) := by
  simp [build_headers, get_token, htok, headersFor]

theorem wrapOk_snd (r : Except PyError JValue × List HttpRequest) :
    (wrapOk r).2 = r.2 := by
  rcases r with ⟨res, t⟩
  cases res <;> rfl

theorem wrapOk_fst_ok (r : Except PyError JValue × List HttpRequest)
    (lst : List TextContent) (h : (wrapOk r).1 = .ok lst) :
    ∃ d, lst = [⟨"text", dumpsIndent2 d⟩] := by
  rcases r with ⟨res, t⟩
  cases res with
  | ok d =>
      refine ⟨d, ?_⟩
      simp only [wrapOk, ok] at h
      exact (Except.ok.injEq _ _ |>.mp h).symm
  | error e => simp [wrapOk] at h

theorem handle_snd (env : Option String) (net : Network) (name : String)
    (arguments : Option Args) :
    (handle_call_tool env net name arguments).2
      = (dispatchBody env net name (arguments.getD [])).2 := by
  unfold handle_call_tool
  rcases hd : dispatchBody env net name (arguments.getD []) with ⟨res, t⟩
  cases res with
  | ok lst => simp [hd]
  | error e => cases e <;> simp [hd]

theorem tv_get_trace (env : Option String) (net : Network) (path : String)
    (params : Option Args) (hdrs : List (String × String))
    (h : build_headers env = .ok hdrs) :
    (tv_get env net path params).2
      = [⟨.GET, BASE_URL ++ path, hdrs, params, none⟩] := by
  simp only [tv_get, h]
  rcases net ⟨.GET, BASE_URL ++ path, hdrs, params, none⟩ with ⟨status, rbody⟩ | m
  · by_cases h2 : is2xx status = true <;> simp [h2]
  · rfl

theorem tv_post_trace (env : Option String) (net : Network) (path : String)
    (body : Option Args) (hdrs : List (String × String))
    (h : build_headers env = .ok hdrs) :
    (tv_post env net path body).2
      = [⟨.POST, BASE_URL ++ path, hdrs, none, some (body.getD [])⟩] := by
  simp only [tv_post, h]
  rcases net ⟨.POST, BASE_URL ++ path, hdrs, none, some (body.getD [])⟩ with ⟨status, rbody⟩ | m
  · by_cases h2 : is2xx status = true <;> simp [h2]
  · rfl

theorem tv_put_trace (env : Option String) (net : Network) (path : String)
    (body : Option Args) (hdrs : List (String × String))
    (h : build_headers env = .ok hdrs) :
    (tv_put env net path body).2
      = [⟨.PUT, BASE_URL ++ path, hdrs, none, some (body.getD [])⟩] := by
  simp only [tv_put, h]
  rcases net ⟨.PUT, BASE_URL ++ path, hdrs, none, some (body.getD [])⟩ with ⟨status, rbody⟩ | m
  · by_cases h2 : is2xx status = true <;> simp [h2]
  · rfl

theorem tv_delete_trace (env : Option String) (net : Network) (path : String)
    (hdrs : List (String × String)) (h : build_headers env = .ok hdrs) :
    (tv_delete env net path).2
      = [⟨.DELETE, BASE_URL ++ path, hdrs, none, none⟩] := by
  simp only [tv_delete, h]
  split
  · rfl
  · split
    · split <;> rfl
    · rfl

theorem exec_token_missing (env : Option String) (net : Network) (p : Plan)
    (h : env.getD "" = "") :
    execPlan env net p = (.error (.valueError tokenErrorMsg), []) := by
  have hb : build_headers env = .error (.valueError tokenErrorMsg) := by
    simp [build_headers, get_token, h]
  rcases p with ⟨verb, path, params, body⟩
  cases verb <;> simp [execPlan, tv_get, tv_post, tv_put, tv_delete, hb]

/-! ### Shaping lemmas over the catalog -/

/-- Whether a shaping outcome resolved to a transport plan. -/
def ShapeResult.isPlanB : ShapeResult → Bool
  | .plan _ => true
  | _ => false

theorem shape_unknown_of_not_mem (name : String) (args : Args)
    (h : name ∉ toolNames) : shapeTool name args = .unknown := by
  simp only [toolNames, TOOLS, List.map_cons, List.map_nil, List.mem_cons,
    List.not_mem_nil, or_false] at h
  push_neg at h
  obtain ⟨h1, h2, h3, h4, h5, h6, h7, h8, h9, h10, h11, h12, h13, h14, h15, h16,
    h17, h18, h19, h20, h21, h22, h23, h24, h25, h26, h27, h28, h29⟩ := h
  simp [shapeTool, h1, h2, h3, h4, h5, h6, h7, h8, h9, h10, h11, h12, h13, h14,
    h15, h16, h17, h18, h19, h20, h21, h22, h23, h24, h25, h26, h27, h28, h29]

theorem shape_plan_of_required (name : String) (args : Args)
    (hmem : name ∈ toolNames)
    (hreq : ∀ k ∈ requiredOf name, (dictGet args k).isSome = true) :
    (shapeTool name args).isPlanB = true := by
  simp only [toolNames, TOOLS, List.map_cons, List.map_nil, List.mem_cons,
    List.not_mem_nil, or_false] at hmem
  rcases hmem with h|h|h|h|h|h|h|h|h|h|h|h|h|h|h|h|h|h|h|h|h|h|h|h|h|h|h|h|h
  · subst h; simp +decide [shapeTool, ShapeResult.isPlanB]
  · subst h; simp +decide [shapeTool, ShapeResult.isPlanB]
  · subst h; simp +decide [shapeTool, ShapeResult.isPlanB]
  · subst h
    rcases Option.isSome_iff_exists.mp (hreq "device_id" (by decide)) with ⟨v, hv⟩
    simp +decide [shapeTool, hv, ShapeResult.isPlanB]
  · subst h
    rcases Option.isSome_iff_exists.mp (hreq "device_id" (by decide)) with ⟨v, hv⟩
    simp +decide [shapeTool, hv, ShapeResult.isPlanB]
  · subst h
    rcases Option.isSome_iff_exists.mp (hreq "device_id" (by decide)) with ⟨v, hv⟩
    simp +decide [shapeTool, hv, ShapeResult.isPlanB]
  · subst h; simp +decide [shapeTool, ShapeResult.isPlanB]
  · subst h
    rcases Option.isSome_iff_exists.mp (hreq "name" (by decide)) with ⟨v, hv⟩
    simp +decide [shapeTool, hv, ShapeResult.isPlanB]
  · subst h
    rcases Option.isSome_iff_exists.mp (hreq "group_id" (by decide)) with ⟨v, hv⟩
    simp +decide [shapeTool, hv, ShapeResult.isPlanB]
  · subst h
    rcases Option.isSome_iff_exists.mp (hreq "group_id" (by decide)) with ⟨v, hv⟩
    simp +decide [shapeTool, hv, ShapeResult.isPlanB]
  · subst h
    rcases Option.isSome_iff_exists.mp (hreq "group_id" (by decide)) with ⟨g, hg⟩
    rcases Option.isSome_iff_exists.mp (hreq "users" (by decide)) with ⟨u, hu⟩
    simp +decide [shapeTool, hg, hu, ShapeResult.isPlanB]
  · subst h; simp +decide [shapeTool, ShapeResult.isPlanB]
  · subst h; simp +decide [shapeTool, ShapeResult.isPlanB]
  · subst h
    rcases Option.isSome_iff_exists.mp (hreq "user_id" (by decide)) with ⟨v, hv⟩
    simp +decide [shapeTool, hv, ShapeResult.isPlanB]
  · subst h
    rcases Option.isSome_iff_exists.mp (hreq "user_id" (by decide)) with ⟨v, hv⟩
    simp +decide [shapeTool, hv, ShapeResult.isPlanB]
  · subst h; simp +decide [shapeTool, ShapeResult.isPlanB]
  · subst h; simp +decide [shapeTool, ShapeResult.isPlanB]
  · subst h
    rcases Option.isSome_iff_exists.mp (hreq "session_code" (by decide)) with ⟨v, hv⟩
    simp +decide [shapeTool, hv, ShapeResult.isPlanB]
  · subst h
    rcases Option.isSome_iff_exists.mp (hreq "session_code" (by decide)) with ⟨v, hv⟩
    simp +decide [shapeTool, hv, ShapeResult.isPlanB]
  · subst h
    rcases Option.isSome_iff_exists.mp (hreq "session_code" (by decide)) with ⟨v, hv⟩
    simp +decide [shapeTool, hv, ShapeResult.isPlanB]
  · subst h; simp +decide [shapeTool, ShapeResult.isPlanB]
  · subst h; simp +decide [shapeTool, ShapeResult.isPlanB]
  · subst h; simp +decide [shapeTool, ShapeResult.isPlanB]
  · subst h
    rcases Option.isSome_iff_exists.mp (hreq "meeting_id" (by decide)) with ⟨v, hv⟩
    simp +decide [shapeTool, hv, ShapeResult.isPlanB]
  · subst h
    rcases Option.isSome_iff_exists.mp (hreq "meeting_id" (by decide)) with ⟨v, hv⟩
    simp +decide [shapeTool, hv, ShapeResult.isPlanB]
  · subst h
    rcases Option.isSome_iff_exists.mp (hreq "meeting_id" (by decide)) with ⟨v, hv⟩
    simp +decide [shapeTool, hv, ShapeResult.isPlanB]
  · subst h; simp +decide [shapeTool, ShapeResult.isPlanB]
  · subst h
    rcases Option.isSome_iff_exists.mp (hreq "policy_id" (by decide)) with ⟨v, hv⟩
    simp +decide [shapeTool, hv, ShapeResult.isPlanB]
  · subst h; simp +decide [shapeTool, ShapeResult.isPlanB]

theorem exec_parse_fail (tok body m : String) (p : Plan) (htok : tok ≠ "")
    (hparse : json_loads body = .error m) :
    (execPlan (some tok) (fun _ => .response 200 body) p).1
      = .error (.jsonDecodeError m) := by
  have hb := build_headers_ok tok htok
  rcases p with ⟨verb, path, params, pbody⟩
  cases verb <;>
    simp +decide [execPlan, tv_get, tv_post, tv_put, tv_delete, hb, is2xx,
      expectJson, hparse]

theorem dispatch_fst_ok_singleton (env : Option String) (net : Network)
    (name : String) (args : Args) (lst : List TextContent) (t : List HttpRequest)
    (h : dispatchBody env net name args = (.ok lst, t)) : ∃ c, lst = [c] := by
  unfold dispatchBody at h
  cases hs : shapeTool name args with
  | unknown =>
      rw [hs] at h
      simp only [Prod.mk.injEq, Except.ok.injEq] at h
      exact ⟨_, h.1.symm⟩
  | err e => rw [hs] at h; simp at h
  | plan p =>
      rw [hs] at h
      obtain ⟨d, hd⟩ := wrapOk_fst_ok (execPlan env net p) lst (congrArg Prod.fst h)
      exact ⟨_, hd⟩

/-- C10: invoking the dispatcher with `arguments = None` is
indistinguishable (same envelope, same outbound requests) from invoking
it with an empty argument mapping, because of the `args = arguments or
{}` normalization (`server.py:523`). -/
theorem null_arguments_same_as_empty (env : Option String) (net : Network)
    (name : String) :
    handle_call_tool env net name none = handle_call_tool env net name (some []) :=
  rfl

/-- C5: an unknown tool name yields a Success-shaped envelope whose text
is the JSON object with the single key `error` mapped to
`Unknown tool: <name>`, with no network request and no escaping
exception (`server.py:707-713`). -/
theorem unknown_tool_soft_envelope (env : Option String) (net : Network)
    (name : String) (arguments : Option Args) (h : name ∉ toolNames) :
    handle_call_tool env net name arguments
      = (.ok [⟨"text", dumpsCompact (.obj [("error", .str ("Unknown tool: " ++ name))])⟩],
         []) := by
  have hu := shape_unknown_of_not_mem name (arguments.getD []) h
  simp [handle_call_tool, dispatchBody, hu, unknownText]

/-- Witness for C5 at the concrete unknown name `frobnicate`. -/
theorem unknown_tool_soft_envelope_witness :
    ("frobnicate" ∉ toolNames) ∧
    handle_call_tool none (fun _ => .netFail "x") "frobnicate" none
      = (.ok [⟨"text",
          dumpsCompact (.obj [("error", .str ("Unknown tool: " ++ "frobnicate"))])⟩],
         []) :=
  ⟨by decide,
   unknown_tool_soft_envelope none (fun _ => .netFail "x") "frobnicate" none (by decide)⟩

/-- C1 (counterexample): a transport-level failure on `ping` escapes the
dispatch boundary as an exception (the result is an escaping
`transportError`, not an envelope), so the claim that every invocation
yields an envelope regardless of internal outcome is false. -/
theorem transport_fault_escapes_dispatch :
    handle_call_tool (some "t") (fun _ => .netFail "Connection timed out") "ping" none
      = (.error (.transportError "Connection timed out"),
         [⟨.GET, BASE_URL ++ "/ping", headersFor "t", none, none⟩]) := rfl

/-- C1 (amended): every invocation either returns exactly one envelope
(a single text content) or lets an exception escape, and the escaping
exceptions are exactly the hard faults — neither `ValueError`-class
(configuration or JSON-decode) nor `httpx.HTTPStatusError`, which the
boundary always converts to envelopes. -/
theorem invocation_single_envelope_or_hard_fault (env : Option String)
    (net : Network) (name : String) (arguments : Option Args) :
    (∃ c, (handle_call_tool env net name arguments).1 = Except.ok [c]) ∨
    (∃ e, (handle_call_tool env net name arguments).1 = Except.error e ∧
          e.isValueError = false ∧ e.isStatusError = false) := by
  rcases hd : dispatchBody env net name (arguments.getD []) with ⟨res, t⟩
  cases res with
  | ok lst =>
      left
      obtain ⟨c, rfl⟩ := dispatch_fst_ok_singleton env net name _ lst t hd
      exact ⟨c, by simp [handle_call_tool, hd]⟩
  | error e =>
      cases e with
      | httpStatusError s b =>
          left
          exact ⟨⟨"text", dumpsIndent2 (.obj
              [("error", .str ("TeamViewer API error " ++ toString s)),
               ("detail", .str b)])⟩, by simp [handle_call_tool, hd]⟩
      | valueError m =>
          left
          exact ⟨⟨"text", dumpsIndent2 (.obj [("error", .str m)])⟩,
            by simp [handle_call_tool, hd]⟩
      | jsonDecodeError m =>
          left
          exact ⟨⟨"text", dumpsIndent2 (.obj [("error", .str m)])⟩,
            by simp [handle_call_tool, hd]⟩
      | keyError k =>
          right
          exact ⟨.keyError k, by simp [handle_call_tool, hd], rfl, rfl⟩
      | transportError m =>
          right
          exact ⟨.transportError m, by simp [handle_call_tool, hd], rfl, rfl⟩

/-- C2 (counterexample): `tv_put` does not synthesize `{success: true}`
on a 204 response — it hands the empty body to `response.json()`, which
raises a `JSONDecodeError`. -/
theorem put_204_raises_decode_error :
    (tv_put (some "t") (fun _ => .response 204 "") "/sessions/s" none).1
        = .error (.jsonDecodeError "Expecting value")
      ∧ (tv_put (some "t") (fun _ => .response 204 "") "/sessions/s" none).1
        ≠ .ok (JValue.obj [("success", JValue.bool true)]) :=
  ⟨rfl, by
    show Except.error (PyError.jsonDecodeError "Expecting value")
        ≠ Except.ok (JValue.obj [("success", JValue.bool true)])
    simp⟩

/-- C2 (amended): only `tv_delete` treats status 204 specially,
synthesizing `{success: true}`; `tv_get`, `tv_post` and `tv_put` parse
the body of every 2xx response as JSON, status 204 included. -/
theorem status_204_synthesis_only_in_delete (tok path : String)
    (params body : Option Args) (status : Nat) (rbody : String)
    (htok : tok ≠ "") (h1 : 200 ≤ status) (h2 : status < 300) :
    ((tv_delete (some tok) (fun _ => .response status rbody) path).1
        = if status = 204 then Except.ok (JValue.obj [("success", JValue.bool true)])
          else expectJson rbody)
      ∧ (tv_get (some tok) (fun _ => .response status rbody) path params).1 = expectJson rbody
      ∧ (tv_post (some tok) (fun _ => .response status rbody) path body).1 = expectJson rbody
      ∧ (tv_put (some tok) (fun _ => .response status rbody) path body).1 = expectJson rbody := by
  have hdrs := build_headers_ok tok htok
  have h2x : is2xx status = true := by simp [is2xx]; omega
  refine ⟨?_, ?_, ?_, ?_⟩
  · by_cases h3 : status = 204
    · simp +decide [tv_delete, hdrs, h3]
    · simp [tv_delete, hdrs, h2x, h3]
  · simp [tv_get, hdrs, h2x]
  · simp [tv_post, hdrs, h2x]
  · simp [tv_put, hdrs, h2x]

/-- Witness for the amended C2 at status 204 with an empty body. -/
theorem status_204_synthesis_only_in_delete_witness :
    ("t" ≠ "") ∧ (200 ≤ 204) ∧ (204 < 300) ∧
    (((tv_delete (some "t") (fun _ => .response 204 "") "/x").1
        = if 204 = 204 then Except.ok (JValue.obj [("success", JValue.bool true)])
          else expectJson "")
      ∧ (tv_get (some "t") (fun _ => .response 204 "") "/x" none).1 = expectJson ""
      ∧ (tv_post (some "t") (fun _ => .response 204 "") "/x" none).1 = expectJson ""
      ∧ (tv_put (some "t") (fun _ => .response 204 "") "/x" none).1 = expectJson "") :=
  ⟨by decide, by decide, by decide,
   status_204_synthesis_only_in_delete "t" "/x" none none 204 "" (by decide)
     (by decide) (by decide)⟩

/-- C3 (counterexample): a 2xx response whose body fails to parse is NOT
escalated past the dispatch boundary — on `ping` with body `oops` the
`JSONDecodeError` (a `ValueError` subclass) is caught by the boundary's
`except ValueError` clause and converted into a soft
`{error: ...}` envelope. -/
theorem parse_failure_softened_on_ping :
    handle_call_tool (some "t") (fun _ => .response 200 "oops") "ping" none
      = (.ok [⟨"text", dumpsIndent2 (.obj [("error", .str "Expecting value")])⟩],
         [⟨.GET, BASE_URL ++ "/ping", headersFor "t", none, none⟩]) := rfl

/-- C3 (amended): for every catalog tool invoked with its required
arguments present, a 2xx response whose body fails JSON parsing produces
a soft `{error: <decode message>}` envelope — the `JSONDecodeError` is a
`ValueError` subclass, so the dispatch boundary catches and softens it
instead of letting it escalate. -/
theorem parse_failure_caught_as_soft_envelope (name : String) (args : Args)
    (tok body m : String) (hmem : name ∈ toolNames)
    (hreq : ∀ k ∈ requiredOf name, (dictGet args k).isSome = true)
    (htok : tok ≠ "") (hparse : json_loads body = .error m) :
    (handle_call_tool (some tok) (fun _ => .response 200 body) name (some args)).1
      = .ok [⟨"text", dumpsIndent2 (.obj [("error", .str m)])⟩] := by
  have hp := shape_plan_of_required name args hmem hreq
  cases hs : shapeTool name args with
  | unknown => rw [hs] at hp; simp [ShapeResult.isPlanB] at hp
  | err e => rw [hs] at hp; simp [ShapeResult.isPlanB] at hp
  | plan p =>
      have he := exec_parse_fail tok body m p htok hparse
      rcases hx : execPlan (some tok) (fun _ => .response 200 body) p with ⟨res, t⟩
      rw [hx] at he
      simp only at he
      subst he
      simp [handle_call_tool, dispatchBody, hs, hx, wrapOk]

/-- Witness for the amended C3: `ping` with a 200 response whose body is
the unparsable `x`. -/
theorem parse_failure_caught_as_soft_envelope_witness :
    ("ping" ∈ toolNames) ∧ (∀ k ∈ requiredOf "ping", (dictGet [] k).isSome = true) ∧
    ("t" ≠ "") ∧ (json_loads "x" = .error "Expecting value") ∧
    (handle_call_tool (some "t") (fun _ => .response 200 "x") "ping" (some [])).1
      = .ok [⟨"text", dumpsIndent2 (.obj [("error", .str "Expecting value")])⟩] :=
  ⟨by decide, by decide, by decide, rfl,
   parse_failure_caught_as_soft_envelope "ping" [] "t" "x" "Expecting value"
     (by decide) (by decide) (by decide) rfl⟩

/-- C6: `close_session` issues exactly one PUT to
`/sessions/<session_code>` whose body is exactly `{state: closed}`,
whatever other arguments are supplied (`server.py:649-654`). -/
theorem close_session_put_fixed_body (tok : String) (net : Network)
    (args : Args) (v : JValue) (htok : tok ≠ "")
    (hv : dictGet args "session_code" = some v) :
    (handle_call_tool (some tok) net "close_session" (some args)).2
      = [⟨.PUT, BASE_URL ++ ("/sessions/" ++ pyStr v), headersFor tok,
          none, some [("state", JValue.str "closed")]⟩] := by
  have hs : shapeTool "close_session" args
      = .plan ⟨.PUT, "/sessions/" ++ pyStr v, none, some [("state", JValue.str "closed")]⟩ := by
    simp +decide [shapeTool, hv]
  rw [handle_snd]
  simp only [Option.getD_some, dispatchBody, hs, wrapOk_snd, execPlan]
  rw [tv_put_trace (some tok) net _ _ _ (build_headers_ok tok htok)]
  rfl

/-- Witness for C6 at session code `s00-000-000` with one extra
argument supplied. -/
theorem close_session_put_fixed_body_witness :
    ("t" ≠ "") ∧
    (dictGet [("session_code", JValue.str "s00-000-000"), ("extra", JValue.int 3)]
        "session_code" = some (JValue.str "s00-000-000")) ∧
    (handle_call_tool (some "t") (fun _ => .netFail "x") "close_session"
        (some [("session_code", JValue.str "s00-000-000"), ("extra", JValue.int 3)])).2
      = [⟨.PUT, BASE_URL ++ ("/sessions/" ++ pyStr (JValue.str "s00-000-000")),
          headersFor "t", none, some [("state", JValue.str "closed")]⟩] :=
  ⟨by decide, rfl,
   close_session_put_fixed_body "t" (fun _ => .netFail "x")
     [("session_code", JValue.str "s00-000-000"), ("extra", JValue.int 3)]
     (JValue.str "s00-000-000") (by decide) rfl⟩

/-- C7: `get_connection_reports` invoked with exactly `from_date` and
`limit` issues one GET to `/reports/connections` whose query parameters
are exactly `from` and `limit` (renamed per the `field_map` table), with
no `to`, `deviceid`, `userid`, `sessioncode` or `offset` keys
(`server.py:657-672`). -/
theorem connection_reports_renamed_params (tok : String) (net : Network)
    (v1 v2 : JValue) (htok : tok ≠ "")
    (h1 : jIsNull v1 = false) (h2 : jIsNull v2 = false) :
    (handle_call_tool (some tok) net "get_connection_reports"
        (some [("from_date", v1), ("limit", v2)])).2
      = [⟨.GET, BASE_URL ++ "/reports/connections", headersFor tok,
          some [("from", v1), ("limit", v2)], none⟩] := by
  have hs : shapeTool "get_connection_reports" [("from_date", v1), ("limit", v2)]
      = .plan ⟨.GET, "/reports/connections", some [("from", v1), ("limit", v2)], none⟩ := by
    have hnull : jIsNull JValue.null = true := rfl
    simp +decide [shapeTool, connFieldMap, pyGet, dictGet, optParams,
      List.filterMap_cons, List.filterMap_nil, h1, h2, hnull]
  rw [handle_snd]
  simp only [Option.getD_some, dispatchBody, hs, wrapOk_snd, execPlan]
  exact tv_get_trace (some tok) net _ _ _ (build_headers_ok tok htok)

/-- Witness for C7 at concrete date and limit values. -/
theorem connection_reports_renamed_params_witness :
    ("t" ≠ "") ∧ (jIsNull (JValue.str "2024-01-01T00:00:00") = false) ∧
    (jIsNull (JValue.int 50) = false) ∧
    (handle_call_tool (some "t") (fun _ => .netFail "x") "get_connection_reports"
        (some [("from_date", JValue.str "2024-01-01T00:00:00"), ("limit", JValue.int 50)])).2
      = [⟨.GET, BASE_URL ++ "/reports/connections", headersFor "t",
          some [("from", JValue.str "2024-01-01T00:00:00"), ("limit", JValue.int 50)],
          none⟩] :=
  ⟨by decide, rfl, rfl,
   connection_reports_renamed_params "t" (fun _ => .netFail "x")
     (JValue.str "2024-01-01T00:00:00") (JValue.int 50) (by decide) rfl rfl⟩

/-- C9 (counterexample): the unknown-tool error envelope is serialized
with the compact `json.dumps`, not the indented form — the two
serializations of the same object differ, so not every envelope is
indented JSON text. -/
theorem unknown_tool_envelope_not_indented :
    handle_call_tool none (fun _ => .netFail "x") "nope" none
        = (.ok [⟨"text", dumpsCompact (.obj [("error", .str "Unknown tool: nope")])⟩], [])
      ∧ dumpsCompact (.obj [("error", .str "Unknown tool: nope")])
          ≠ dumpsIndent2 (.obj [("error", .str "Unknown tool: nope")]) :=
  ⟨rfl, by decide⟩

/-- C4: with the credential unset or empty, every catalog tool invoked
with its required arguments present fails with the same
`ConfigurationError`-derived envelope, and no request is issued
(`server.py:28-36`, `server.py:729-735`). -/
theorem missing_token_uniform_config_error (env : Option String) (net : Network)
    (name : String) (args : Args)
    (hmem : name ∈ toolNames)
    (hreq : ∀ k ∈ requiredOf name, (dictGet args k).isSome = true)
    (henv : env.getD "" = "") :
    handle_call_tool env net name (some args)
      = (.ok [⟨"text", dumpsIndent2 (.obj [("error", .str tokenErrorMsg)])⟩], []) := by
  have hp := shape_plan_of_required name args hmem hreq
  cases hs : shapeTool name args with
  | unknown => rw [hs] at hp; simp [ShapeResult.isPlanB] at hp
  | err e => rw [hs] at hp; simp [ShapeResult.isPlanB] at hp
  | plan p =>
      have he := exec_token_missing env net p henv
      simp [handle_call_tool, dispatchBody, hs, he, wrapOk]

/-- Witness for C4: `ping` with no arguments and the variable unset. -/
theorem missing_token_uniform_config_error_witness :
    ("ping" ∈ toolNames) ∧ (∀ k ∈ requiredOf "ping", (dictGet [] k).isSome = true) ∧
    ((none : Option String).getD "" = "") ∧
    handle_call_tool none (fun _ => .netFail "x") "ping" (some [])
      = (.ok [⟨"text", dumpsIndent2 (.obj [("error", .str tokenErrorMsg)])⟩], []) :=
  ⟨by decide, by decide, rfl,
   missing_token_uniform_config_error none (fun _ => .netFail "x") "ping" []
     (by decide) (by decide) rfl⟩

/-! ### Key-membership lemmas for the outbound requests -/

/-- Keys of an optional dictionary (`none` contributes nothing). -/
def keysOfOpt (o : Option Args) : List String := keys (o.getD [])

/-- All body and query-parameter keys appearing in a request trace. -/
def traceKeys (t : List HttpRequest) : List String :=
  (t.map (fun r => keysOfOpt r.params ++ keysOfOpt r.body)).flatten

/-- The outbound key a caller-facing argument name maps to: the
`field_map` translation for `get_connection_reports`, the identity for
every other tool. -/
def outKey (name o : String) : String :=
  if name = "get_connection_reports" then
    (((connFieldMap.find? (fun ap => ap.1 == o)).map (fun ap => ap.2)).getD o)
  else o

theorem dictGet_none_not_mem_keys (args : Args) (o : String)
    (h : dictGet args o = none) : o ∉ keys args := by
  induction args with
  | nil => simp [keys]
  | cons kv rest ih =>
      rw [dictGet] at h
      by_cases he : kv.1 = o
      · rw [if_pos he] at h; exact absurd h (by simp)
      · rw [if_neg he] at h
        have hrest := ih h
        simp only [keys, List.map_cons, List.mem_cons]
        rintro (hh | hh)
        · exact he hh.symm
        · exact hrest (by simpa [keys] using hh)

theorem mem_keys_filter (p : String × JValue → Bool) (args : Args) (o : String)
    (h : o ∈ keys (args.filter p)) : o ∈ keys args := by
  simp only [keys, List.mem_map] at h ⊢
  obtain ⟨kv, hkv, rfl⟩ := h
  exact ⟨kv, List.mem_of_mem_filter hkv, rfl⟩

theorem not_mem_keys_filterNotNull (args : Args) (o : String)
    (h : dictGet args o = none) : o ∉ keys (filterNotNull args) :=
  fun hm => dictGet_none_not_mem_keys args o h (mem_keys_filter _ _ _ hm)

theorem not_mem_keys_filterNotNull_remove (args : Args) (o k : String)
    (h : dictGet args o = none) :
    o ∉ keys (filterNotNull (dictRemove args k)) :=
  fun hm => dictGet_none_not_mem_keys args o h
    (mem_keys_filter _ _ _ (mem_keys_filter _ _ _ hm))

theorem mem_keysOfOpt_optParams (p : Args) (x : String)
    (h : x ∈ keysOfOpt (optParams p)) : x ∈ keys p := by
  by_cases he : p.isEmpty
  · simp [keysOfOpt, optParams, he, keys] at h
  · simpa [keysOfOpt, optParams, he] using h

theorem mem_keys_append (x : String) (a b : Args) :
    x ∈ keys (a ++ b) ↔ x ∈ keys a ∨ x ∈ keys b := by
  simp [keys]

theorem mem_keys_cond_singleton (c : Bool) (k : String) (v : JValue) (x : String)
    (hx : x ∈ keys (if c = true then [(k, v)] else [])) : c = true ∧ x = k := by
  by_cases hc : c = true
  · simp only [hc, if_pos] at hx
    simp [keys] at hx
    exact ⟨hc, hx⟩
  · simp [hc, keys] at hx

theorem traceKeys_singleton (r : HttpRequest) :
    traceKeys [r] = keysOfOpt r.params ++ keysOfOpt r.body := by
  simp [traceKeys]

theorem traceKeys_exec_subset (env : Option String) (net : Network) (p : Plan)
    (x : String) (hx : x ∈ traceKeys (execPlan env net p).2) :
    x ∈ keysOfOpt p.params ∨ x ∈ keysOfOpt p.body := by
  rcases p with ⟨verb, path, params, body⟩
  cases hb : build_headers env with
  | error e =>
      cases verb <;>
        simp [execPlan, tv_get, tv_post, tv_put, tv_delete, hb, traceKeys] at hx
  | ok hdrs =>
      cases verb
      · rw [show execPlan env net ⟨.GET, path, params, body⟩
              = tv_get env net path params from rfl,
            tv_get_trace env net path params hdrs hb, traceKeys_singleton] at hx
        rcases List.mem_append.mp hx with h1 | h1
        · exact Or.inl h1
        · exact absurd h1 (by simp [keysOfOpt, keys])
      · rw [show execPlan env net ⟨.POST, path, params, body⟩
              = tv_post env net path body from rfl,
            tv_post_trace env net path body hdrs hb, traceKeys_singleton] at hx
        rcases List.mem_append.mp hx with h1 | h1
        · exact absurd h1 (by simp [keysOfOpt, keys])
        · exact Or.inr h1
      · rw [show execPlan env net ⟨.PUT, path, params, body⟩
              = tv_put env net path body from rfl,
            tv_put_trace env net path body hdrs hb, traceKeys_singleton] at hx
        rcases List.mem_append.mp hx with h1 | h1
        · exact absurd h1 (by simp [keysOfOpt, keys])
        · exact Or.inr h1
      · rw [show execPlan env net ⟨.DELETE, path, params, body⟩
              = tv_delete env net path from rfl,
            tv_delete_trace env net path hdrs hb, traceKeys_singleton] at hx
        rcases List.mem_append.mp hx with h1 | h1 <;>
          exact absurd h1 (by simp [keysOfOpt, keys])

theorem not_mem_trace_of_plan_keys (env : Option String) (net : Network)
    (name : String) (args : Args) (x : String)
    (h : ∀ p, shapeTool name args = .plan p →
         x ∉ keysOfOpt p.params ∧ x ∉ keysOfOpt p.body) :
    x ∉ traceKeys (dispatchBody env net name args).2 := by
  cases hs : shapeTool name args with
  | unknown => simp [dispatchBody, hs, traceKeys]
  | err e => simp [dispatchBody, hs, traceKeys]
  | plan p =>
      intro hx
      simp only [dispatchBody, hs, wrapOk_snd] at hx
      rcases traceKeys_exec_subset env net p x hx with h1 | h1
      · exact (h p hs).1 h1
      · exact (h p hs).2 h1

theorem not_mem_keysOfOpt_none (x : String) : x ∉ keysOfOpt none := by
  simp [keysOfOpt, keys]

theorem not_mem_keysOfOpt_some (l : Args) (x : String) (h : x ∉ keys l) :
    x ∉ keysOfOpt (some l) := by
  simpa [keysOfOpt] using h

theorem outKey_id (name o : String) (h : name ≠ "get_connection_reports") :
    outKey name o = o := by
  simp [outKey, h]

theorem conn_filterMap_no_key (args : Args) (o t : String)
    (hinj : ∀ ap ∈ connFieldMap, ap.2 = t → ap.1 = o)
    (habs : dictGet args o = none) :
    t ∉ keys (connFieldMap.filterMap (fun ap =>
      if jIsNull (pyGet args ap.1) then none
      else some (ap.2, pyGet args ap.1))) := by
  have hnull : pyGet args o = JValue.null := by simp [pyGet, habs]
  suffices hgen : ∀ tbl : List (String × String),
      (∀ ap ∈ tbl, ap.2 = t → ap.1 = o) →
      t ∉ keys (tbl.filterMap (fun ap =>
        if jIsNull (pyGet args ap.1) then none
        else some (ap.2, pyGet args ap.1))) from hgen connFieldMap hinj
  intro tbl
  induction tbl with
  | nil => intro _; simp [keys]
  | cons ap rest ih =>
      intro hinj2
      by_cases hn : jIsNull (pyGet args ap.1) = true
      · simp only [List.filterMap_cons, hn, if_pos]
        exact ih (fun bp hbp => hinj2 bp (List.mem_cons_of_mem _ hbp))
      · simp only [List.filterMap_cons]
        rw [if_neg hn]
        intro hmem
        simp only [keys, List.map_cons, List.mem_cons] at hmem
        rcases hmem with heq | hmem2
        · have h1 : ap.1 = o := hinj2 ap (List.mem_cons_self _ _) heq.symm
          rw [h1, hnull] at hn
          exact hn rfl
        · exact ih (fun bp hbp => hinj2 bp (List.mem_cons_of_mem _ hbp))
            (by simpa [keys] using hmem2)

/-- C8: for every catalog tool, an optional argument absent from the
invocation never contributes a key (under its outbound name) to the body
or the query parameters of any issued request; in particular
`create_group(name=x)` sends a body of exactly one `name` key
(`server.py:575-580` and the other shaping branches). -/
theorem absent_optional_args_never_sent :
    (∀ (env : Option String) (net : Network) (name : String) (args : Args) (o : String),
      name ∈ toolNames → o ∈ optionalOf name → dictGet args o = none →
      outKey name o ∉ traceKeys (handle_call_tool env net name (some args)).2)
    ∧ (∀ (tok x : String) (net : Network), tok ≠ "" →
      (handle_call_tool (some tok) net "create_group" (some [("name", JValue.str x)])).2
        = [⟨.POST, BASE_URL ++ "/groups", headersFor tok, none,
            some [("name", JValue.str x)]⟩]) := by
  constructor
  · intro env net name args o hmem hopt habs
    simp only [toolNames, TOOLS, List.map_cons, List.map_nil, List.mem_cons,
      List.not_mem_nil, or_false] at hmem
    rcases hmem with h|h|h|h|h|h|h|h|h|h|h|h|h|h|h|h|h|h|h|h|h|h|h|h|h|h|h|h|h
    · subst h
      rw [show optionalOf "get_account" = ([] : List String) from by decide] at hopt
      simp at hopt
    · subst h
      rw [outKey_id _ _ (by decide), handle_snd]
      simp only [Option.getD_some]
      apply not_mem_trace_of_plan_keys
      intro p hp
      simp +decide [shapeTool] at hp
      subst hp
      exact ⟨not_mem_keysOfOpt_none _,
        not_mem_keysOfOpt_some _ _ (not_mem_keys_filterNotNull args o habs)⟩
    · subst h
      rw [outKey_id _ _ (by decide), handle_snd]
      simp only [Option.getD_some]
      apply not_mem_trace_of_plan_keys
      intro p hp
      simp +decide [shapeTool] at hp
      subst hp
      refine ⟨?_, not_mem_keysOfOpt_none _⟩
      intro hm
      have hkm := mem_keysOfOpt_optParams _ _ hm
      have hnull : pyGet args o = JValue.null := by simp [pyGet, habs]
      rcases (mem_keys_append _ _ _).mp hkm with hA0 | hB0
      · obtain ⟨hc, ho⟩ := mem_keys_cond_singleton _ _ _ _ hA0
        subst ho
        rw [hnull] at hc
        exact absurd hc (by decide)
      · rcases (mem_keys_append _ _ _).mp hB0 with hA1 | hB1
        · obtain ⟨hc, ho⟩ := mem_keys_cond_singleton _ _ _ _ hA1
          subst ho
          rw [hnull] at hc
          exact absurd hc (by decide)
        · obtain ⟨hc, ho⟩ := mem_keys_cond_singleton _ _ _ _ hB1
          subst ho
          rw [hnull] at hc
          exact absurd hc (by decide)
    · subst h
      rw [show optionalOf "get_device" = ([] : List String) from by decide] at hopt
      simp at hopt
    · subst h
      rw [outKey_id _ _ (by decide), handle_snd]
      simp only [Option.getD_some]
      apply not_mem_trace_of_plan_keys
      intro p hp
      cases hdd : dictGet args "device_id" with
      | none => simp +decide [shapeTool, hdd] at hp
      | some v =>
          simp +decide [shapeTool, hdd] at hp
          subst hp
          exact ⟨not_mem_keysOfOpt_none _,
            not_mem_keysOfOpt_some _ _ (not_mem_keys_filterNotNull_remove args o "device_id" habs)⟩
    · subst h
      rw [show optionalOf "delete_device" = ([] : List String) from by decide] at hopt
      simp at hopt
    · subst h
      rw [outKey_id _ _ (by decide), handle_snd]
      simp only [Option.getD_some]
      apply not_mem_trace_of_plan_keys
      intro p hp
      simp +decide [shapeTool] at hp
      subst hp
      refine ⟨?_, not_mem_keysOfOpt_none _⟩
      intro hm
      have hkm := mem_keysOfOpt_optParams _ _ hm
      have hnull : pyGet args o = JValue.null := by simp [pyGet, habs]
      obtain ⟨hc, ho⟩ := mem_keys_cond_singleton _ _ _ _ hkm
      subst ho
      rw [hnull] at hc
      exact absurd hc (by decide)
    · subst h
      rw [show optionalOf "create_group" = ["policy_id"] from by decide] at hopt
      simp at hopt
      subst hopt
      rw [outKey_id _ _ (by decide), handle_snd]
      simp only [Option.getD_some]
      apply not_mem_trace_of_plan_keys
      intro p hp
      cases hdd : dictGet args "name" with
      | none => simp +decide [shapeTool, hdd] at hp
      | some v =>
          simp +decide [shapeTool, hdd] at hp
          subst hp
          refine ⟨not_mem_keysOfOpt_none _, ?_⟩
          intro hm
          have hnull : pyGet args "policy_id" = JValue.null := by simp [pyGet, habs]
          simp +decide [keysOfOpt, keys, hnull, jTruthy] at hm
    · subst h
      rw [outKey_id _ _ (by decide), handle_snd]
      simp only [Option.getD_some]
      apply not_mem_trace_of_plan_keys
      intro p hp
      cases hdd : dictGet args "group_id" with
      | none => simp +decide [shapeTool, hdd] at hp
      | some v =>
          simp +decide [shapeTool, hdd] at hp
          subst hp
          exact ⟨not_mem_keysOfOpt_none _,
            not_mem_keysOfOpt_some _ _ (not_mem_keys_filterNotNull_remove args o "group_id" habs)⟩
    · subst h
      rw [show optionalOf "delete_group" = ([] : List String) from by decide] at hopt
      simp at hopt
    · subst h
      rw [show optionalOf "share_group" = ([] : List String) from by decide] at hopt
      simp at hopt
    · subst h
      rw [outKey_id _ _ (by decide), handle_snd]
      simp only [Option.getD_some]
      apply not_mem_trace_of_plan_keys
      intro p hp
      simp +decide [shapeTool] at hp
      subst hp
      refine ⟨?_, not_mem_keysOfOpt_none _⟩
      intro hm
      have hkm := mem_keysOfOpt_optParams _ _ hm
      have hnull : pyGet args o = JValue.null := by simp [pyGet, habs]
      rcases (mem_keys_append _ _ _).mp hkm with hA0 | hB0
      · obtain ⟨hc, ho⟩ := mem_keys_cond_singleton _ _ _ _ hA0
        subst ho
        rw [hnull] at hc
        exact absurd hc (by decide)
      · rcases (mem_keys_append _ _ _).mp hB0 with hA1 | hB1
        · obtain ⟨hc, ho⟩ := mem_keys_cond_singleton _ _ _ _ hA1
          subst ho
          rw [hnull] at hc
          exact absurd hc (by decide)
        · rcases (mem_keys_append _ _ _).mp hB1 with hA2 | hB2
          · obtain ⟨hc, ho⟩ := mem_keys_cond_singleton _ _ _ _ hA2
            subst ho
            rw [hnull] at hc
            exact absurd hc (by decide)
          · obtain ⟨hc, ho⟩ := mem_keys_cond_singleton _ _ _ _ hB2
            subst ho
            rw [hnull] at hc
            exact absurd hc (by decide)
    · subst h
      rw [outKey_id _ _ (by decide), handle_snd]
      simp only [Option.getD_some]
      apply not_mem_trace_of_plan_keys
      intro p hp
      simp +decide [shapeTool] at hp
      subst hp
      exact ⟨not_mem_keysOfOpt_none _,
        not_mem_keysOfOpt_some _ _ (not_mem_keys_filterNotNull args o habs)⟩
    · subst h
      rw [show optionalOf "get_user" = ([] : List String) from by decide] at hopt
      simp at hopt
    · subst h
      rw [outKey_id _ _ (by decide), handle_snd]
      simp only [Option.getD_some]
      apply not_mem_trace_of_plan_keys
      intro p hp
      cases hdd : dictGet args "user_id" with
      | none => simp +decide [shapeTool, hdd] at hp
      | some v =>
          simp +decide [shapeTool, hdd] at hp
          subst hp
          exact ⟨not_mem_keysOfOpt_none _,
            not_mem_keysOfOpt_some _ _ (not_mem_keys_filterNotNull_remove args o "user_id" habs)⟩
    · subst h
      rw [outKey_id _ _ (by decide), handle_snd]
      simp only [Option.getD_some]
      apply not_mem_trace_of_plan_keys
      intro p hp
      simp +decide [shapeTool] at hp
      subst hp
      refine ⟨?_, not_mem_keysOfOpt_none _⟩
      intro hm
      have hkm := mem_keysOfOpt_optParams _ _ hm
      have hnull : pyGet args o = JValue.null := by simp [pyGet, habs]
      rcases (mem_keys_append _ _ _).mp hkm with hA0 | hB0
      · obtain ⟨hc, ho⟩ := mem_keys_cond_singleton _ _ _ _ hA0
        subst ho
        rw [hnull] at hc
        exact absurd hc (by decide)
      · obtain ⟨hc, ho⟩ := mem_keys_cond_singleton _ _ _ _ hB0
        subst ho
        rw [hnull] at hc
        exact absurd hc (by decide)
    · subst h
      rw [outKey_id _ _ (by decide), handle_snd]
      simp only [Option.getD_some]
      apply not_mem_trace_of_plan_keys
      intro p hp
      simp +decide [shapeTool] at hp
      subst hp
      exact ⟨not_mem_keysOfOpt_none _,
        not_mem_keysOfOpt_some _ _ (not_mem_keys_filterNotNull args o habs)⟩
    · subst h
      rw [show optionalOf "get_session" = ([] : List String) from by decide] at hopt
      simp at hopt
    · subst h
      rw [outKey_id _ _ (by decide), handle_snd]
      simp only [Option.getD_some]
      apply not_mem_trace_of_plan_keys
      intro p hp
      cases hdd : dictGet args "session_code" with
      | none => simp +decide [shapeTool, hdd] at hp
      | some v =>
          simp +decide [shapeTool, hdd] at hp
          subst hp
          exact ⟨not_mem_keysOfOpt_none _,
            not_mem_keysOfOpt_some _ _ (not_mem_keys_filterNotNull_remove args o "session_code" habs)⟩
    · subst h
      rw [show optionalOf "close_session" = ([] : List String) from by decide] at hopt
      simp at hopt
    · subst h
      rw [handle_snd]
      simp only [Option.getD_some]
      apply not_mem_trace_of_plan_keys
      intro p hp
      simp +decide [shapeTool] at hp
      subst hp
      refine ⟨?_, not_mem_keysOfOpt_none _⟩
      intro hm
      have hkm := mem_keysOfOpt_optParams _ _ hm
      rw [show optionalOf "get_connection_reports"
          = ["from_date", "to_date", "device_id", "user_id", "session_code",
             "limit", "offset"] from by decide] at hopt
      simp at hopt
      rcases hopt with rfl | rfl | rfl | rfl | rfl | rfl | rfl <;>
        exact conn_filterMap_no_key args _ _ (by decide) habs hkm
    · subst h
      rw [show optionalOf "list_meetings" = ([] : List String) from by decide] at hopt
      simp at hopt
    · subst h
      rw [outKey_id _ _ (by decide), handle_snd]
      simp only [Option.getD_some]
      apply not_mem_trace_of_plan_keys
      intro p hp
      simp +decide [shapeTool] at hp
      subst hp
      exact ⟨not_mem_keysOfOpt_none _,
        not_mem_keysOfOpt_some _ _ (not_mem_keys_filterNotNull args o habs)⟩
    · subst h
      rw [show optionalOf "get_meeting" = ([] : List String) from by decide] at hopt
      simp at hopt
    · subst h
      rw [outKey_id _ _ (by decide), handle_snd]
      simp only [Option.getD_some]
      apply not_mem_trace_of_plan_keys
      intro p hp
      cases hdd : dictGet args "meeting_id" with
      | none => simp +decide [shapeTool, hdd] at hp
      | some v =>
          simp +decide [shapeTool, hdd] at hp
          subst hp
          exact ⟨not_mem_keysOfOpt_none _,
            not_mem_keysOfOpt_some _ _ (not_mem_keys_filterNotNull_remove args o "meeting_id" habs)⟩
    · subst h
      rw [show optionalOf "delete_meeting" = ([] : List String) from by decide] at hopt
      simp at hopt
    · subst h
      rw [show optionalOf "list_policies" = ([] : List String) from by decide] at hopt
      simp at hopt
    · subst h
      rw [show optionalOf "get_policy" = ([] : List String) from by decide] at hopt
      simp at hopt
    · subst h
      rw [show optionalOf "ping" = ([] : List String) from by decide] at hopt
      simp at hopt
  · intro tok x net htok
    have hs : shapeTool "create_group" [("name", JValue.str x)]
        = .plan ⟨.POST, "/groups", none, some [("name", JValue.str x)]⟩ := by
      simp +decide [shapeTool, pyGet, dictGet, jTruthy]
    rw [handle_snd]
    simp only [Option.getD_some, dispatchBody, hs, wrapOk_snd, execPlan]
    rw [tv_post_trace (some tok) net _ _ _ (build_headers_ok tok htok)]
    rfl

/-- Witness for C8: `create_group` with only `name` supplied, `policy_id`
absent from body and query, and the exact one-key body. -/
theorem absent_optional_args_never_sent_witness :
    ("create_group" ∈ toolNames) ∧ ("policy_id" ∈ optionalOf "create_group") ∧
    (dictGet [("name", JValue.str "X")] "policy_id" = none) ∧
    (outKey "create_group" "policy_id"
      ∉ traceKeys (handle_call_tool (some "t") (fun _ => .netFail "x") "create_group"
          (some [("name", JValue.str "X")])).2) ∧
    ("t" ≠ "") ∧
    ((handle_call_tool (some "t") (fun _ => .netFail "x") "create_group"
        (some [("name", JValue.str "X")])).2
      = [⟨.POST, BASE_URL ++ "/groups", headersFor "t", none,
          some [("name", JValue.str "X")]⟩]) :=
  ⟨by decide, by decide, rfl,
   absent_optional_args_never_sent.1 (some "t") (fun _ => .netFail "x") "create_group"
     [("name", JValue.str "X")] "policy_id" (by decide) (by decide) rfl,
   by decide,
   absent_optional_args_never_sent.2 "t" "X" (fun _ => .netFail "x") (by decide)⟩

theorem shape_ne_unknown_of_mem (name : String) (args : Args)
    (hmem : name ∈ toolNames) : shapeTool name args ≠ .unknown := by
  simp only [toolNames, TOOLS, List.map_cons, List.map_nil, List.mem_cons,
    List.not_mem_nil, or_false] at hmem
  rcases hmem with h|h|h|h|h|h|h|h|h|h|h|h|h|h|h|h|h|h|h|h|h|h|h|h|h|h|h|h|h <;>
    subst h <;>
    · intro hcontra
      simp +decide [shapeTool] at hcontra
      try ((split at hcontra) <;> ((try (split at hcontra)) <;> (cases hcontra)))

theorem handle_fst_ok_shape (env : Option String) (net : Network) (name : String)
    (arguments : Option Args) (lst : List TextContent)
    (hok : (handle_call_tool env net name arguments).1 = .ok lst) :
    (∃ d, lst = [⟨"text", dumpsIndent2 d⟩]) ∨
    (shapeTool name (arguments.getD []) = .unknown
      ∧ lst = [⟨"text", unknownText name⟩]) := by
  cases hs : shapeTool name (arguments.getD []) with
  | unknown =>
      right
      refine ⟨rfl, ?_⟩
      simp [handle_call_tool, dispatchBody, hs] at hok
      exact hok.symm
  | err e =>
      left
      cases e with
      | httpStatusError s b =>
          simp [handle_call_tool, dispatchBody, hs] at hok
          exact ⟨_, hok.symm⟩
      | valueError m =>
          simp [handle_call_tool, dispatchBody, hs] at hok
          exact ⟨_, hok.symm⟩
      | jsonDecodeError m =>
          simp [handle_call_tool, dispatchBody, hs] at hok
          exact ⟨_, hok.symm⟩
      | keyError k => simp [handle_call_tool, dispatchBody, hs] at hok
      | transportError m => simp [handle_call_tool, dispatchBody, hs] at hok
  | plan p =>
      left
      rcases hx : execPlan env net p with ⟨res, t⟩
      cases res with
      | ok d =>
          simp [handle_call_tool, dispatchBody, hs, hx, wrapOk, ok] at hok
          exact ⟨d, hok.symm⟩
      | error e =>
          cases e with
          | httpStatusError s b =>
              simp [handle_call_tool, dispatchBody, hs, hx, wrapOk] at hok
              exact ⟨_, hok.symm⟩
          | valueError m =>
              simp [handle_call_tool, dispatchBody, hs, hx, wrapOk] at hok
              exact ⟨_, hok.symm⟩
          | jsonDecodeError m =>
              simp [handle_call_tool, dispatchBody, hs, hx, wrapOk] at hok
              exact ⟨_, hok.symm⟩
          | keyError k => simp [handle_call_tool, dispatchBody, hs, hx, wrapOk] at hok
          | transportError m => simp [handle_call_tool, dispatchBody, hs, hx, wrapOk] at hok

/-- C9 (amended): every envelope produced for a catalog tool — upstream
payload, upstream-error, configuration-error or decode-error alike — is
indented JSON text; the unknown-tool error envelope alone is serialized
compactly (without `indent=2`). -/
theorem envelope_indentation_by_path (env : Option String) (net : Network)
    (name : String) (arguments : Option Args) (lst : List TextContent)
    (c : TextContent)
    (hok : (handle_call_tool env net name arguments).1 = .ok lst) (hc : c ∈ lst) :
    (name ∈ toolNames → ∃ d, c = ⟨"text", dumpsIndent2 d⟩) ∧
    (name ∉ toolNames →
      c = ⟨"text", dumpsCompact (.obj [("error", .str ("Unknown tool: " ++ name))])⟩) := by
  constructor
  · intro hmem
    rcases handle_fst_ok_shape env net name arguments lst hok with ⟨d, rfl⟩ | ⟨hu, _⟩
    · exact ⟨d, by simpa using hc⟩
    · exact absurd hu (shape_ne_unknown_of_mem name _ hmem)
  · intro hnot
    have hu := shape_unknown_of_not_mem name (arguments.getD []) hnot
    have hl : lst = [⟨"text", unknownText name⟩] := by
      simp [handle_call_tool, dispatchBody, hu] at hok
      exact hok.symm
    subst hl
    simpa [unknownText] using hc

/-- Witness for the amended C9: the configuration-error envelope of
`ping` is indented. -/
theorem envelope_indentation_by_path_witness :
    ((handle_call_tool none (fun _ => .netFail "x") "ping" none).1
        = .ok [⟨"text", dumpsIndent2 (.obj [("error", .str tokenErrorMsg)])⟩]) ∧
    ((⟨"text", dumpsIndent2 (.obj [("error", .str tokenErrorMsg)])⟩ : TextContent)
        ∈ [(⟨"text", dumpsIndent2 (.obj [("error", .str tokenErrorMsg)])⟩ : TextContent)]) ∧
    (("ping" ∈ toolNames →
        ∃ d, (⟨"text", dumpsIndent2 (.obj [("error", .str tokenErrorMsg)])⟩ : TextContent)
          = ⟨"text", dumpsIndent2 d⟩) ∧
     ("ping" ∉ toolNames →
        (⟨"text", dumpsIndent2 (.obj [("error", .str tokenErrorMsg)])⟩ : TextContent)
          = ⟨"text", dumpsCompact (.obj [("error", .str ("Unknown tool: " ++ "ping"))])⟩)) :=
  ⟨rfl, List.mem_singleton.mpr rfl,
   envelope_indentation_by_path none (fun _ => .netFail "x") "ping" none _ _ rfl
     (List.mem_singleton.mpr rfl)⟩
